import Mathlib

/-!
Shallow embedding of the Ledger Query & Analytics Engine of the expense
tracker backend (`app/repositories/expense_repository.py` and
`app/services/expenses.py`), together with theorems settling the spec
claims about it.

Dates/instants are modelled as integers (a total order of instants);
where real calendar arithmetic matters (ISO weeks, month windows) the
proleptic Gregorian calendar is embedded following the CPython
`datetime` module, which the code uses.
-/

/-- Case-insensitive character comparison helper: lower-case a character
the way `str.lower` does for ASCII (the only case the tests exercise). -/
def lowerChar (c : Char) : Char :=
  if 'A' ≤ c ∧ c ≤ 'Z' then Char.ofNat (c.toNat + 32) else c

/-- Does the second list start with the first? -/
def listStartsWith : List Char → List Char → Bool
  | [], _ => true
  | _ :: _, [] => false
  | a :: as, b :: bs => a == b && listStartsWith as bs

/-- Does the second list contain the first as a contiguous run? -/
def listContainsRun (needle : List Char) : List Char → Bool
  | [] => needle.isEmpty
  | c :: rest => listStartsWith needle (c :: rest) || listContainsRun needle rest

/-- Case-insensitive substring test, the embedding of SQL
`column ILIKE '%fragment%'`. -/
def strContainsCI (needle hay : String) : Bool :=
  listContainsRun (needle.toList.map lowerChar) (hay.toList.map lowerChar)

/-- A ledger row, translated from the `Expense` model: the columns the
analytics core reads.  `date` is the economic instant (microsecond
ticks in the Gregorian embedding, but any integer instant works for the
order-only operations).  `tags` is the persisted encoded scalar. -/
structure Expense where
  id : Nat
  user_id : Nat
  amount : ℚ
  category : String
  subcategory : Option String
  merchant : Option String
  description : Option String
  date : Int
  is_recurring : Bool
  tags : Option String
  deriving Repr, DecidableEq

/-- The row predicate compiled by `ExpenseRepository._filtered_query`:
owner scoping always applied first, then each supplied filter with AND
semantics.  Python truthiness: a `category`/`search` equal to the empty
string is falsy, so those filters are skipped for `""` exactly as
`if category:` / `if search:` skip them. -/
def matchesFilters (user_id : Nat) (start_date end_date : Option Int)
    (category : Option String) (min_amount max_amount : Option ℚ)
    (search : Option String) (e : Expense) : Bool :=
  e.user_id == user_id
  && (match start_date with | none => true | some s => decide (s ≤ e.date))
  && (match end_date with | none => true | some t => decide (e.date ≤ t))
  && (match category with
      | none => true
      | some c => if c = "" then true else e.category == c)
  && (match min_amount with | none => true | some m => decide (m ≤ e.amount))
  && (match max_amount with | none => true | some m => decide (e.amount ≤ m))
  && (match search with
      | none => true
      | some s => if s = "" then true else
          strContainsCI s (e.description.getD "")
          || strContainsCI s (e.merchant.getD "")
          || strContainsCI s (e.subcategory.getD ""))

/-- `ExpenseRepository._filtered_query`: the rows of the store matching
the compiled predicate. -/
def filtered_query (rows : List Expense) (user_id : Nat)
    (start_date end_date : Option Int) (category : Option String)
    (min_amount max_amount : Option ℚ) (search : Option String) :
    List Expense :=
  rows.filter
    (matchesFilters user_id start_date end_date category min_amount max_amount search)

/-- `ExpenseRepository.get_expenses_since`: owner-scoped scan of rows
dated at or after `start_date`. -/
def get_expenses_since (rows : List Expense) (user_id : Nat)
    (start_date : Int) : List Expense :=
  rows.filter (fun e => e.user_id == user_id && decide (start_date ≤ e.date))

/-- Insert a row into a list kept sorted descending by `key`. -/
def insertDescBy (key : Expense → Int) (e : Expense) :
    List Expense → List Expense
  | [] => [e]
  | x :: xs =>
      if key x ≤ key e then e :: x :: xs else x :: insertDescBy key e xs

/-- Sort rows descending by `key` (the embedding of
`ORDER BY ... DESC`). -/
def sortDescBy (key : Expense → Int) (l : List Expense) : List Expense :=
  l.foldr (insertDescBy key) []

/-- `ExpenseRepository.list_expenses`: filter, count (independent of
pagination), order newest-first, then apply
`OFFSET (page-1)*limit LIMIT limit`. -/
def list_expenses (rows : List Expense) (user_id : Nat)
    (start_date end_date : Option Int) (category : Option String)
    (min_amount max_amount : Option ℚ) (search : Option String)
    (page limit : Nat) : List Expense × Nat :=
  let q := filtered_query rows user_id start_date end_date category
    min_amount max_amount search
  ((((sortDescBy (·.date) q).drop ((page - 1) * limit)).take limit), q.length)

/-- The page count reported by `ExpenseService.get_expenses`:
`(total + limit - 1) // limit`. -/
def pages_for (total limit : Nat) : Nat := (total + limit - 1) / limit

/-- The row set scanned by `sum_in_period` and
`get_category_totals_in_period`: owner scoped, date in the closed
interval `[start_date, end_date]` (both `>=` and `<=` in the source). -/
def periodRows (rows : List Expense) (user_id : Nat)
    (start_date end_date : Int) : List Expense :=
  rows.filter (fun e =>
    e.user_id == user_id
    && decide (start_date ≤ e.date) && decide (e.date ≤ end_date))

/-- The row set scanned by `get_monthly_category_totals`: owner scoped,
date in the half-open interval `[start_date, end_date)` (`>=` then `<`
in the source). -/
def monthlyRows (rows : List Expense) (user_id : Nat)
    (start_date end_date : Int) : List Expense :=
  rows.filter (fun e =>
    e.user_id == user_id
    && decide (start_date ≤ e.date) && decide (e.date < end_date))

/-- SQL `SUM(amount)`: `NULL` when no rows are aggregated, the sum
otherwise. -/
def sqlSum (l : List ℚ) : Option ℚ :=
  if l.isEmpty then none else some l.sum

/-- `ExpenseRepository.sum_in_period`: `float(total or 0)` turns the
`NULL` of an empty aggregate into `0`. -/
def sum_in_period (rows : List Expense) (user_id : Nat)
    (start_date end_date : Int) : ℚ :=
  (sqlSum ((periodRows rows user_id start_date end_date).map (·.amount))).getD 0

/-- `ExpenseRepository.get_category_totals_in_period`: group the
rows of the period by category, with per-category amount sum and row
count. -/
def get_category_totals_in_period (rows : List Expense) (user_id : Nat)
    (start_date end_date : Int) : List (String × ℚ × Nat) :=
  let q := periodRows rows user_id start_date end_date
  ((q.map (·.category)).dedup).map (fun c =>
    let fiber := q.filter (fun e => e.category == c)
    (c, (fiber.map (·.amount)).sum, fiber.length))

/-- Percentage change of `ExpenseService.get_total_spend_dashboard`
(lines 757-760): divide only when the previous-month sum is strictly
positive, else a defined floor of `100`/`0`. -/
def percentage_change (current previous : ℚ) : ℚ :=
  if previous > 0 then ((current - previous) / previous) * 100
  else if current > 0 then 100 else 0

/-- Direction tag of `ExpenseService.get_total_spend_dashboard`
(lines 763-768), from the sign of the percentage change. -/
def change_direction (pc : ℚ) : String :=
  if pc > 0 then "increase" else if pc < 0 then "decrease" else "same"

/-- Tag decoding shared by `ExpenseService._expense_to_response` and
the CSV branch of `ExpenseService.export_expenses`: an absent or falsy
(empty-string) scalar gives `[]`, a scalar the JSON decoder rejects is
recovered as `[]`, and a decodable scalar gives its decoded list.  The
decoder itself is external (`json.loads`), so it is a parameter. -/
def decodeTags (jsonDecode : String → Option (List String))
    (tags : Option String) : List String :=
  match tags with
  | none => []
  | some s =>
      if s = "" then []
      else
        match jsonDecode s with
        | some l => l
        | none => []

/-- The `tags` field rendered by `ExpenseService._expense_to_response`. -/
def response_tags (jsonDecode : String → Option (List String))
    (e : Expense) : List String :=
  decodeTags jsonDecode e.tags

/-- The tag list rendered for a row by the export path
(`ExpenseService.export_expenses`, CSV branch). -/
def export_tags (jsonDecode : String → Option (List String))
    (e : Expense) : List String :=
  decodeTags jsonDecode e.tags

/-!
Proleptic Gregorian calendar, translated from the CPython `datetime`
module, which the service code calls (`isocalendar`,
`fromisocalendar`, `calendar.monthrange`, the `datetime` constructor).
Ordinal 1 is 0001-01-01, a Monday.
-/

/-- CPython `_is_leap`. -/
def isLeap (y : Int) : Bool :=
  y % 4 == 0 && (y % 100 != 0 || y % 400 == 0)

/-- CPython `_days_in_month` (also the last day returned by
`calendar.monthrange`). -/
def days_in_month (y m : Int) : Int :=
  if m = 1 then 31 else if m = 2 then (if isLeap y then 29 else 28)
  else if m = 3 then 31 else if m = 4 then 30 else if m = 5 then 31
  else if m = 6 then 30 else if m = 7 then 31 else if m = 8 then 31
  else if m = 9 then 30 else if m = 10 then 31 else if m = 11 then 30
  else 31

/-- CPython `_days_before_month`. -/
def days_before_month (y m : Int) : Int :=
  (if m = 1 then 0 else if m = 2 then 31 else if m = 3 then 59
   else if m = 4 then 90 else if m = 5 then 120 else if m = 6 then 151
   else if m = 7 then 181 else if m = 8 then 212 else if m = 9 then 243
   else if m = 10 then 273 else if m = 11 then 304 else 334)
  + (if isLeap y ∧ 2 < m then 1 else 0)

/-- CPython `_days_before_year` (with `y - 1` in place of its local
`y -= 1`). -/
def days_before_year (y : Int) : Int :=
  (y - 1) * 365 + (y - 1) / 4 - (y - 1) / 100 + (y - 1) / 400

/-- CPython `_ymd2ord`: the proleptic Gregorian ordinal of a date. -/
def ymd2ord (y m d : Int) : Int :=
  days_before_year y + days_before_month y m + d

/-- The dates the `datetime` constructor accepts (year at least
`MINYEAR = 1`, month 1-12, day within the month). -/
def ValidDate (y m d : Int) : Prop :=
  1 ≤ y ∧ 1 ≤ m ∧ m ≤ 12 ∧ 1 ≤ d ∧ d ≤ days_in_month y m

instance (y m d : Int) : Decidable (ValidDate y m d) := by
  unfold ValidDate; infer_instance

/-- CPython `_isoweek1monday`: the ordinal of the Monday starting ISO
week 1 of `y`. -/
def isoweek1monday (y : Int) : Int :=
  let firstday := ymd2ord y 1 1
  let firstweekday := (firstday + 6) % 7
  let week1monday := firstday - firstweekday
  if 3 < firstweekday then week1monday + 7 else week1monday

/-- CPython `date.isocalendar`: (ISO year, ISO week, ISO weekday).
Its locals `today = _ymd2ord(year, month, day)`,
`week, day = divmod(today - week1monday, 7)` are inlined; `divmod`
with the positive divisor 7 is Euclidean division, `Int./` and
`Int.%`. -/
def isocalendar (y m d : Int) : Int × Int × Int :=
  if (ymd2ord y m d - isoweek1monday y) / 7 < 0 then
    (y - 1, (ymd2ord y m d - isoweek1monday (y - 1)) / 7 + 1,
      (ymd2ord y m d - isoweek1monday (y - 1)) % 7 + 1)
  else if 52 ≤ (ymd2ord y m d - isoweek1monday y) / 7 then
    if isoweek1monday (y + 1) ≤ ymd2ord y m d then
      (y + 1, 1, (ymd2ord y m d - isoweek1monday y) % 7 + 1)
    else
      (y, (ymd2ord y m d - isoweek1monday y) / 7 + 1,
        (ymd2ord y m d - isoweek1monday y) % 7 + 1)
  else
    (y, (ymd2ord y m d - isoweek1monday y) / 7 + 1,
      (ymd2ord y m d - isoweek1monday y) % 7 + 1)

/-- The ordinal of CPython `date.fromisocalendar(iy, iw, iday)` (its
range validation omitted: the service only feeds it `isocalendar`
output, which is always in range). -/
def fromisocalendar_ord (iy iw iday : Int) : Int :=
  isoweek1monday iy + (iw - 1) * 7 + (iday - 1)

/-- Zero-padded two-digit rendering, the `{n:02d}` format item. -/
def pad2 (n : Int) : String :=
  if n < 10 then "0" ++ toString n else toString n

/-- The weekly `bucket_info` closure of
`ExpenseService.get_spend_trend_dashboard`: bucket key is the date
(ordinal) of `fromisocalendar(iso_year, iso_week, 1)` and the label is
the `{iso_year}-W{iso_week:02d}` string. -/
def weekly_bucket_info (y m d : Int) : Int × String :=
  let r := isocalendar y m d
  (fromisocalendar_ord r.1 r.2.1 1, toString r.1 ++ "-W" ++ pad2 r.2.1)

/-- A `datetime.datetime` value (no timezone, as in the service). -/
structure DateTime where
  year : Int
  month : Int
  day : Int
  hour : Int
  minute : Int
  second : Int
  microsecond : Int
  deriving Repr, DecidableEq

/-- Microsecond ticks since the epoch of ordinal 0: the linearisation
of `datetime` comparison used to order instants. -/
def toTicks (t : DateTime) : Int :=
  ymd2ord t.year t.month t.day * 86400000000
    + t.hour * 3600000000 + t.minute * 60000000
    + t.second * 1000000 + t.microsecond

/-- `now.replace(day=1, hour=0, minute=0, second=0, microsecond=0)` in
`get_total_spend_dashboard`. -/
def current_month_start (now : DateTime) : DateTime :=
  { now with
    day := 1, hour := 0, minute := 0, second := 0, microsecond := 0 }

/-- `now.replace(day=last_day, hour=23, minute=59, second=59,
microsecond=999999)` in `get_total_spend_dashboard`: the *last* day of
the current month, not the current instant. -/
def current_month_end (now : DateTime) : DateTime :=
  { now with
    day := days_in_month now.year now.month,
    hour := 23, minute := 59, second := 59, microsecond := 999999 }

/-- Previous-month rollover of `get_total_spend_dashboard` (and of the
monthly branch of `get_top_transactions_dashboard`): January steps the
year back. -/
def prev_month_of (now : DateTime) : Int × Int :=
  if now.month = 1 then (now.year - 1, 12) else (now.year, now.month - 1)

/-- Start of the previous calendar month in
`get_total_spend_dashboard`. -/
def previous_month_start (now : DateTime) : DateTime :=
  ⟨(prev_month_of now).1, (prev_month_of now).2, 1, 0, 0, 0, 0⟩

/-- End of the previous calendar month in
`get_total_spend_dashboard`. -/
def previous_month_end (now : DateTime) : DateTime :=
  ⟨(prev_month_of now).1, (prev_month_of now).2,
    days_in_month (prev_month_of now).1 (prev_month_of now).2,
    23, 59, 59, 999999⟩

/-- The current-month row set scanned by `get_total_spend_dashboard`
via `sum_in_period`. -/
def current_month_rows (rows : List Expense) (user_id : Nat)
    (now : DateTime) : List Expense :=
  periodRows rows user_id (toTicks (current_month_start now))
    (toTicks (current_month_end now))

/-- The current-month sum of `get_total_spend_dashboard`. -/
def current_month_sum (rows : List Expense) (user_id : Nat)
    (now : DateTime) : ℚ :=
  sum_in_period rows user_id (toTicks (current_month_start now))
    (toTicks (current_month_end now))

/-- The previous-month sum of `get_total_spend_dashboard`. -/
def previous_month_sum (rows : List Expense) (user_id : Nat)
    (now : DateTime) : ℚ :=
  sum_in_period rows user_id (toTicks (previous_month_start now))
    (toTicks (previous_month_end now))

/-- The `datetime(y, m, d)` constructor: `none` models the
`ValueError` it raises on an out-of-range component. -/
def mkDatetime (y m d : Int) : Option DateTime :=
  if ValidDate y m d then some ⟨y, m, d, 0, 0, 0, 0⟩ else none

/-- Window start of `ExpenseService.get_top_transactions_dashboard`
(as ticks): `weekly` subtracts one week from `now`; `monthly`,
`yearly` and the default branch construct a `datetime` with the same
day-of-month in the earlier month/year, which can raise
(`none`). -/
def top_transactions_start (now : DateTime) (period : String) :
    Option Int :=
  if period = "weekly" then some (toTicks now - 7 * 86400000000)
  else if period = "yearly" then
    (mkDatetime (now.year - 1) now.month now.day).map toTicks
  else
    (mkDatetime (prev_month_of now).1 (prev_month_of now).2 now.day).map toTicks

/-- `ExpenseRepository.get_monthly_category_totals`: group the
half-open-interval rows by (extract year, extract month, category),
summing amounts per group.  The SQL `extract` of calendar year/month
from a stored date is the parameter `ym`. -/
def get_monthly_category_totals (ym : Int → Int × Int)
    (rows : List Expense) (user_id : Nat) (start_date end_date : Int) :
    List ((Int × Int) × String × ℚ) :=
  let q := monthlyRows rows user_id start_date end_date
  ((q.map (fun e => (ym e.date, e.category))).dedup).map (fun k =>
    (k.1, k.2,
      ((q.filter (fun e => (ym e.date, e.category) == k)).map (·.amount)).sum))

/-!  Helper lemmas shared by the claim theorems. -/

/-- `sum_in_period` always equals the plain list sum of the matched
amounts: the `NULL`-to-`0` coalescing agrees with the empty sum. -/
theorem sum_in_period_eq_listSum (rows : List Expense) (uid : Nat)
    (s t : Int) :
    sum_in_period rows uid s t
      = ((periodRows rows uid s t).map (·.amount)).sum := by
  unfold sum_in_period sqlSum
  by_cases h : ((periodRows rows uid s t).map (·.amount)) = [] <;>
    simp [h]

/-- Inserting into a descending-sorted list adds one element. -/
theorem length_insertDescBy (key : Expense → Int) (e : Expense)
    (l : List Expense) : (insertDescBy key e l).length = l.length + 1 := by
  induction l with
  | nil => rfl
  | cons x xs ih =>
      unfold insertDescBy
      split
      · simp
      · simp [ih]

/-- Sorting preserves length. -/
theorem length_sortDescBy (key : Expense → Int) (l : List Expense) :
    (sortDescBy key l).length = l.length := by
  induction l with
  | nil => rfl
  | cons x xs ih =>
      show (insertDescBy key x (sortDescBy key xs)).length = (x :: xs).length
      rw [length_insertDescBy, ih]
      rfl

/-- Splitting a list sum along a Boolean predicate. -/
theorem sum_map_filter_split (p : Expense → Bool) (f : Expense → ℚ)
    (l : List Expense) :
    ((l.filter p).map f).sum + ((l.filter (fun e => !(p e))).map f).sum
      = (l.map f).sum := by
  induction l with
  | nil => simp
  | cons x xs ih =>
      by_cases hx : p x <;>
        simp [List.filter_cons, hx] <;> linarith [ih]

/-- Summing fiberwise over a duplicate-free covering key list gives
the total sum. -/
theorem sum_fibers (f : Expense → ℚ) (ks : List String) :
    ∀ l : List Expense, ks.Nodup → (∀ e ∈ l, e.category ∈ ks) →
      (ks.map (fun c =>
        ((l.filter (fun e => e.category == c)).map f).sum)).sum
        = (l.map f).sum := by
  induction ks with
  | nil =>
      intro l _ hcov
      have hl : l = [] := by
        cases l with
        | nil => rfl
        | cons x xs => exact absurd (hcov x (by simp)) (by simp)
      subst hl; simp
  | cons c ks ih =>
      intro l hnd hcov
      have hcnot : c ∉ ks := (List.nodup_cons.mp hnd).1
      have hnd' : ks.Nodup := (List.nodup_cons.mp hnd).2
      have htail : ∀ c' ∈ ks,
          l.filter (fun e => e.category == c')
            = (l.filter (fun e => !(e.category == c))).filter
                (fun e => e.category == c') := by
        intro c' hc'
        rw [List.filter_filter]
        apply List.filter_congr
        intro e _he
        by_cases hcc : c' = c
        · exact absurd (hcc ▸ hc') hcnot
        · by_cases h : e.category = c'
          · simp [h, hcc]
          · simp [h]
      have hcov2 : ∀ e ∈ l.filter (fun e => !(e.category == c)),
          e.category ∈ ks := by
        intro e he
        have hm := List.mem_filter.mp he
        have hne : ¬ e.category = c := by simpa using hm.2
        rcases List.mem_cons.mp (hcov e hm.1) with h | h
        · exact absurd h hne
        · exact h
      have ihl2 := ih (l.filter (fun e => !(e.category == c))) hnd' hcov2
      have hmapeq : ks.map (fun c' =>
            ((l.filter (fun e => e.category == c')).map f).sum)
          = ks.map (fun c' =>
            (((l.filter (fun e => !(e.category == c))).filter
              (fun e => e.category == c')).map f).sum) := by
        apply List.map_congr_left
        intro c' hc'
        rw [htail c' hc']
      have hsplit := sum_map_filter_split (fun e => e.category == c) f l
      calc ((c :: ks).map (fun c' =>
              ((l.filter (fun e => e.category == c')).map f).sum)).sum
          = ((l.filter (fun e => e.category == c)).map f).sum
            + (ks.map (fun c' =>
                ((l.filter (fun e => e.category == c')).map f).sum)).sum := by
            simp
        _ = ((l.filter (fun e => e.category == c)).map f).sum
            + ((l.filter (fun e => !(e.category == c))).map f).sum := by
            rw [hmapeq, ihl2]
        _ = (l.map f).sum := hsplit

/-- A concrete row used to witness the owner-isolation theorem. -/
def wExpense : Expense :=
  { id := 1, user_id := 4, amount := 5, category := "food",
    subcategory := none, merchant := none, description := none,
    date := 10, is_recurring := false, tags := none }

/-- C1: every row returned by the owner-scoped scans — the predicate
compiled by `_filtered_query` (hence `list_expenses`,
`list_for_export`, `list_in_period`) and `get_expenses_since` — has
`user_id` equal to the requested owner, so no row of another owner is
ever returned. -/
theorem owner_isolation (rows : List Expense) (uid : Nat)
    (sd ed : Option Int) (cat : Option String) (mn mx : Option ℚ)
    (srch : Option String) (start : Int) :
    (∀ e ∈ filtered_query rows uid sd ed cat mn mx srch, e.user_id = uid)
    ∧ (∀ e ∈ get_expenses_since rows uid start, e.user_id = uid) := by
  constructor
  · intro e he
    have h := (List.mem_filter.mp he).2
    simp only [matchesFilters, Bool.and_eq_true, beq_iff_eq] at h
    exact h.1.1.1.1.1.1
  · intro e he
    have h := (List.mem_filter.mp he).2
    simp only [Bool.and_eq_true, beq_iff_eq, decide_eq_true_eq] at h
    exact h.1

/-- Witness for the owner-isolation theorem at a concrete ledger. -/
theorem owner_isolation_witness :
    wExpense ∈ filtered_query [wExpense] 4 none none none none none none
    ∧ wExpense.user_id = 4 := by
  have hmem :
      wExpense ∈ filtered_query [wExpense] 4 none none none none none none := by
    decide
  exact ⟨hmem,
    (owner_isolation [wExpense] 4 none none none none none none 0).1 wExpense hmem⟩

/-- C2: the month-over-month percentage change follows the
divide-by-zero-guarded formula, the direction tag follows its sign,
and the three example points evaluate as stated. -/
theorem total_spend_percentage (current previous : ℚ) :
    (0 < previous →
      percentage_change current previous
        = (current - previous) / previous * 100)
    ∧ (previous = 0 → 0 < current → percentage_change current previous = 100)
    ∧ (previous = 0 → current = 0 → percentage_change current previous = 0)
    ∧ (0 < percentage_change current previous →
        change_direction (percentage_change current previous) = "increase")
    ∧ (percentage_change current previous < 0 →
        change_direction (percentage_change current previous) = "decrease")
    ∧ (percentage_change current previous = 0 →
        change_direction (percentage_change current previous) = "same")
    ∧ percentage_change 50 0 = 100
    ∧ change_direction (percentage_change 50 0) = "increase"
    ∧ percentage_change 100 100 = 0
    ∧ change_direction (percentage_change 100 100) = "same"
    ∧ percentage_change 150 200 = -25
    ∧ change_direction (percentage_change 150 200) = "decrease" := by
  refine ⟨?_, ?_, ?_, ?_, ?_, ?_, ?_, ?_, ?_, ?_, ?_, ?_⟩
  · intro h; rw [percentage_change, if_pos h]
  · intro h hc
    rw [percentage_change, if_neg (by rw [h]; exact lt_irrefl 0), if_pos hc]
  · intro h hc
    rw [percentage_change, if_neg (by rw [h]; exact lt_irrefl 0),
      if_neg (by rw [hc]; exact lt_irrefl 0)]
  · intro h
    rw [change_direction, if_pos h]
  · intro h
    rw [change_direction, if_neg (by linarith), if_pos h]
  · intro h
    rw [change_direction, if_neg (by rw [h]; exact lt_irrefl 0),
      if_neg (by rw [h]; exact lt_irrefl 0)]
  · norm_num [percentage_change]
  · norm_num [percentage_change, change_direction]
  · norm_num [percentage_change]
  · norm_num [percentage_change, change_direction]
  · norm_num [percentage_change]
  · norm_num [percentage_change, change_direction]

/-- Witness for the percentage-change theorem at previous = 200,
current = 150. -/
theorem total_spend_percentage_witness :
    (0 : ℚ) < 200
    ∧ percentage_change 150 200 = (150 - 200) / 200 * 100 :=
  ⟨by norm_num, (total_spend_percentage 150 200).1 (by norm_num)⟩

/-- C6: the row set of the monthly category-totals aggregation is
exactly the rows of the owner with date in the half-open interval
`[start, end)`, while the single-period sum and single-period category
totals scan the closed interval `[start, end]`. -/
theorem interval_bounds (rows : List Expense) (uid : Nat) (s t : Int)
    (e : Expense) :
    (e ∈ monthlyRows rows uid s t
      ↔ e ∈ rows ∧ e.user_id = uid ∧ s ≤ e.date ∧ e.date < t)
    ∧ (e ∈ periodRows rows uid s t
      ↔ e ∈ rows ∧ e.user_id = uid ∧ s ≤ e.date ∧ e.date ≤ t) := by
  constructor <;>
    simp [monthlyRows, periodRows, List.mem_filter, and_assoc]

/-- C7: the period sum is exactly `0` when no rows match, and the sum
of the matched amounts otherwise. -/
theorem period_sum_zero_default (rows : List Expense) (uid : Nat)
    (s t : Int) :
    (periodRows rows uid s t = [] → sum_in_period rows uid s t = 0)
    ∧ sum_in_period rows uid s t
        = ((periodRows rows uid s t).map (·.amount)).sum := by
  refine ⟨?_, sum_in_period_eq_listSum rows uid s t⟩
  intro h
  rw [sum_in_period_eq_listSum, h]
  rfl

/-- Witness for the period-sum theorem on an empty ledger. -/
theorem period_sum_zero_default_witness :
    periodRows [] 3 0 9 = [] ∧ sum_in_period [] 3 0 9 = 0 :=
  ⟨rfl, (period_sum_zero_default [] 3 0 9).1 rfl⟩

/-- C8: on both read paths (response rendering and export), a tags
scalar the decoder rejects yields the empty list, and an absent or
empty scalar also yields the empty list. -/
theorem tags_decode_recovery (dec : String → Option (List String))
    (e : Expense) (s : String) :
    (e.tags = some s → dec s = none →
      response_tags dec e = [] ∧ export_tags dec e = [])
    ∧ (e.tags = none → response_tags dec e = [] ∧ export_tags dec e = [])
    ∧ (e.tags = some "" → response_tags dec e = [] ∧ export_tags dec e = []) := by
  refine ⟨?_, ?_, ?_⟩
  · intro h hd
    by_cases hs : s = "" <;>
      simp [response_tags, export_tags, decodeTags, h, hd, hs]
  · intro h
    simp [response_tags, export_tags, decodeTags, h]
  · intro h
    simp [response_tags, export_tags, decodeTags, h]

/-- A row with an undecodable tags scalar, for the decode witness. -/
def wBadTags : Expense :=
  { id := 6, user_id := 2, amount := 1, category := "misc",
    subcategory := none, merchant := none, description := none,
    date := 0, is_recurring := false, tags := some "not-json" }

/-- Witness for the tags-decode theorem with a decoder that rejects
the stored scalar. -/
theorem tags_decode_recovery_witness :
    response_tags (fun _ => none) wBadTags = []
    ∧ export_tags (fun _ => none) wBadTags = [] :=
  (tags_decode_recovery (fun _ => none) wBadTags "not-json").1 rfl rfl

/-- C10: the monthly (and default) window start of the top-transactions
dashboard is partial, not total: on 2025-03-30 the previous-month
`datetime(2025, 2, 30)` construction fails (a `ValueError` in the
source), for the recognised name "monthly" and for an unrecognised
period string alike. -/
theorem top_transactions_monthly_day_overflow :
    top_transactions_start ⟨2025, 3, 30, 14, 30, 0, 0⟩ "monthly" = none
    ∧ top_transactions_start ⟨2025, 3, 30, 14, 30, 0, 0⟩ "unrecognized" = none
    ∧ mkDatetime 2025 2 30 = none := by
  decide

/-- C5: pagination is 1-based with `offset = (page-1) * limit`: over 5
matching rows with limit 2, page 1 returns 2 rows, page 3 returns 1
row, the reported total is 5 on every page, and the derived page count
is 3. -/
theorem pagination_shape (rows : List Expense) (uid : Nat)
    (sd ed : Option Int) (cat : Option String) (mn mx : Option ℚ)
    (srch : Option String)
    (h5 : (filtered_query rows uid sd ed cat mn mx srch).length = 5) :
    (list_expenses rows uid sd ed cat mn mx srch 1 2).1.length = 2
    ∧ (list_expenses rows uid sd ed cat mn mx srch 3 2).1.length = 1
    ∧ (∀ page, (list_expenses rows uid sd ed cat mn mx srch page 2).2 = 5)
    ∧ pages_for 5 2 = 3 := by
  refine ⟨?_, ?_, fun page => h5, rfl⟩
  · show ((((sortDescBy (·.date) (filtered_query rows uid sd ed cat mn
        mx srch)).drop ((1 - 1) * 2)).take 2)).length = 2
    rw [List.length_take, List.length_drop, length_sortDescBy, h5]
    decide
  · show ((((sortDescBy (·.date) (filtered_query rows uid sd ed cat mn
        mx srch)).drop ((3 - 1) * 2)).take 2)).length = 1
    rw [List.length_take, List.length_drop, length_sortDescBy, h5]
    decide

/-- Five concrete rows of one owner, for the pagination witness. -/
def wFive : List Expense :=
  [⟨1, 9, 5, "a", none, none, none, 1, false, none⟩,
   ⟨2, 9, 6, "b", none, none, none, 2, false, none⟩,
   ⟨3, 9, 7, "c", none, none, none, 3, false, none⟩,
   ⟨4, 9, 8, "d", none, none, none, 4, false, none⟩,
   ⟨5, 9, 9, "e", none, none, none, 5, false, none⟩]

/-- Witness for the pagination theorem over five concrete rows. -/
theorem pagination_shape_witness :
    (filtered_query wFive 9 none none none none none none).length = 5
    ∧ (list_expenses wFive 9 none none none none none none 3 2).1.length = 1 := by
  have h5 : (filtered_query wFive 9 none none none none none none).length = 5 := by
    decide
  exact ⟨h5, (pagination_shape wFive 9 none none none none none none h5).2.1⟩

/-- C9: the per-category totals of the period-bounded category
aggregation sum to the period sum for the same owner and period (the
difference is zero, hence within the 0.01 tolerance). -/
theorem category_totals_sum_eq_period_sum (rows : List Expense)
    (uid : Nat) (s t : Int) :
    |((get_category_totals_in_period rows uid s t).map
        (fun r => r.2.1)).sum
      - sum_in_period rows uid s t| ≤ 1 / 100 := by
  have hfib := sum_fibers (·.amount)
    ((periodRows rows uid s t).map (·.category)).dedup
    (periodRows rows uid s t)
    (List.nodup_dedup _)
    (fun e he => List.mem_dedup.mpr (List.mem_map_of_mem _ he))
  have heq : ((get_category_totals_in_period rows uid s t).map
      (fun r => r.2.1)).sum
      = ((periodRows rows uid s t).map (·.amount)).sum := by
    rw [show (get_category_totals_in_period rows uid s t).map
        (fun r => r.2.1)
        = (((periodRows rows uid s t).map (·.category)).dedup).map
          (fun c => (((periodRows rows uid s t).filter
            (fun e => e.category == c)).map (·.amount)).sum) by
      rw [get_category_totals_in_period, List.map_map]
      rfl]
    exact hfib
  rw [heq, sum_in_period_eq_listSum]
  simp

/-- The ISO week-1 Monday is a Monday: ordinals congruent to 1 mod 7
are Mondays (ordinal 1 is 0001-01-01, a Monday). -/
theorem isoweek1monday_emod (y : Int) : isoweek1monday y % 7 = 1 := by
  have h : ∀ f : Int,
      (if 3 < (f + 6) % 7 then f - (f + 6) % 7 + 7 else f - (f + 6) % 7) % 7
        = 1 := by
    intro f; split <;> omega
  exact h (ymd2ord y 1 1)

/-- The ISO week-1 Monday lies within three days of January 1. -/
theorem isoweek1monday_bounds (y : Int) :
    ymd2ord y 1 1 - 3 ≤ isoweek1monday y
    ∧ isoweek1monday y ≤ ymd2ord y 1 1 + 7 := by
  have h : ∀ f : Int,
      f - 3 ≤ (if 3 < (f + 6) % 7 then f - (f + 6) % 7 + 7 else f - (f + 6) % 7)
      ∧ (if 3 < (f + 6) % 7 then f - (f + 6) % 7 + 7 else f - (f + 6) % 7)
        ≤ f + 7 := by
    intro f
    constructor <;> (split <;> omega)
  exact h (ymd2ord y 1 1)

/-- Unfolding of the leap-year test. -/
theorem isLeap_spec (y : Int) :
    isLeap y = true ↔ (y % 4 = 0 ∧ (y % 100 ≠ 0 ∨ y % 400 = 0)) := by
  simp [isLeap]

/-- One year of days between consecutive January firsts. -/
theorem days_before_year_succ (y : Int) :
    days_before_year (y + 1)
      = days_before_year y + 365 + (if isLeap y then 1 else 0) := by
  by_cases h : isLeap y = true
  · rw [if_pos h]
    rw [isLeap_spec] at h
    unfold days_before_year
    omega
  · rw [if_neg h]
    rw [isLeap_spec] at h
    push_neg at h
    unfold days_before_year
    omega

/-- The ordinal of a valid date precedes January 1 of the next year. -/
theorem ymd2ord_lt_next_year (y m d : Int) (h : ValidDate y m d) :
    ymd2ord y m d < ymd2ord (y + 1) 1 1 := by
  obtain ⟨hy, hm1, hm2, hd1, hd2⟩ := h
  unfold ymd2ord
  rw [days_before_year_succ]
  have hdbm1 : days_before_month (y + 1) 1 = 0 := by
    norm_num [days_before_month]
  rw [hdbm1]
  interval_cases m <;>
    norm_num [days_before_month, days_in_month] at hd2 ⊢ <;>
    split_ifs at hd2 ⊢ <;> omega

/-- The weekly bucket key is the Monday (ordinal congruent to 1 mod 7)
starting the ISO week that contains the date. -/
theorem iso_bucket_spec (y m d : Int) (h : ValidDate y m d) :
    fromisocalendar_ord (isocalendar y m d).1 (isocalendar y m d).2.1 1 % 7 = 1
    ∧ fromisocalendar_ord (isocalendar y m d).1 (isocalendar y m d).2.1 1
        ≤ ymd2ord y m d
    ∧ ymd2ord y m d
        < fromisocalendar_ord (isocalendar y m d).1 (isocalendar y m d).2.1 1
          + 7 := by
  have hW := isoweek1monday_emod y
  have hWp := isoweek1monday_emod (y - 1)
  have hWn := isoweek1monday_emod (y + 1)
  have hv := ymd2ord_lt_next_year y m d h
  have hb := (isoweek1monday_bounds (y + 1)).1
  unfold isocalendar fromisocalendar_ord
  split_ifs with h1 h2 h3 <;> dsimp only <;>
    refine ⟨?_, ?_, ?_⟩ <;> omega

/-- C3: for every valid expense date, the weekly bucket key is the
Monday starting the ISO week of the date, the label is built from the ISO
week-numbering year and ISO week number, and in particular 2024-12-30
is bucketed under `2025-W01` (ISO year 2025, week 1), keyed by its own
ordinal (it is that Monday). -/
theorem weekly_bucketing (y m d : Int) (h : ValidDate y m d) :
    ((weekly_bucket_info y m d).1 % 7 = 1
      ∧ (weekly_bucket_info y m d).1 ≤ ymd2ord y m d
      ∧ ymd2ord y m d < (weekly_bucket_info y m d).1 + 7
      ∧ (weekly_bucket_info y m d).2
          = toString (isocalendar y m d).1 ++ "-W"
            ++ pad2 (isocalendar y m d).2.1)
    ∧ isocalendar 2024 12 30 = (2025, 1, 1)
    ∧ weekly_bucket_info 2024 12 30 = (ymd2ord 2024 12 30, "2025-W01") := by
  have hs := iso_bucket_spec y m d h
  exact ⟨⟨hs.1, hs.2.1, hs.2.2, rfl⟩, by decide, by decide⟩

/-- Witness for the weekly-bucketing theorem at 2024-12-30. -/
theorem weekly_bucketing_witness :
    ValidDate 2024 12 30
    ∧ (weekly_bucket_info 2024 12 30).1 % 7 = 1
    ∧ (weekly_bucket_info 2024 12 30).1 ≤ ymd2ord 2024 12 30
    ∧ ymd2ord 2024 12 30 < (weekly_bucket_info 2024 12 30).1 + 7 :=
  ⟨by decide,
    (weekly_bucketing 2024 12 30 (by decide)).1.1,
    (weekly_bucketing 2024 12 30 (by decide)).1.2.1,
    (weekly_bucketing 2024 12 30 (by decide)).1.2.2.1⟩

/-- The instant of the total-spend counterexample: mid-month noon. -/
def c4now : DateTime := ⟨2025, 6, 15, 12, 0, 0, 0⟩

/-- A row dated five days after `c4now`, still inside June 2025. -/
def c4row : Expense :=
  { id := 2, user_id := 7, amount := 7, category := "travel",
    subcategory := none, merchant := none, description := none,
    date := toTicks ⟨2025, 6, 20, 0, 0, 0, 0⟩, is_recurring := false,
    tags := none }

/-- Counterexample to C4 as stated: a current-month row dated after
the current instant is *included* in the current-month sum (the code
sums up to the last microsecond of the month, not "to date"): at
`now` = 2025-06-15 12:00, the singleton ledger with a row dated
2025-06-20 yields a current-month sum of 7, not 0. -/
theorem total_spend_to_date_counterexample :
    toTicks c4now < c4row.date
    ∧ c4row ∈ current_month_rows [c4row] 7 c4now
    ∧ current_month_sum [c4row] 7 c4now = 7 := by
  refine ⟨by decide, by decide, ?_⟩
  show sum_in_period [c4row] 7 (toTicks (current_month_start c4now))
      (toTicks (current_month_end c4now)) = 7
  rw [sum_in_period_eq_listSum]
  have hrows : periodRows [c4row] 7 (toTicks (current_month_start c4now))
      (toTicks (current_month_end c4now)) = [c4row] := by decide
  rw [hrows]
  simp [c4row]

/-- C4 (amended): the current calendar month is summed over its full
extent — first day 00:00:00.000000 through last day 23:59:59.999999 —
exactly like the previous month, so every owner row dated anywhere in
the current calendar month (in particular after the current instant)
is included in the current-month sum. -/
theorem total_spend_full_month (rows : List Expense) (uid : Nat)
    (now : DateTime) (e : Expense) (he : e ∈ rows) (hu : e.user_id = uid)
    (h1 : toTicks (current_month_start now) ≤ e.date)
    (h2 : e.date ≤ toTicks (current_month_end now)) :
    e ∈ current_month_rows rows uid now
    ∧ current_month_sum rows uid now
        = ((current_month_rows rows uid now).map (·.amount)).sum
    ∧ previous_month_sum rows uid now
        = ((periodRows rows uid (toTicks (previous_month_start now))
            (toTicks (previous_month_end now))).map (·.amount)).sum := by
  refine ⟨?_, sum_in_period_eq_listSum rows uid _ _,
    sum_in_period_eq_listSum rows uid _ _⟩
  exact List.mem_filter.mpr ⟨he, by simp [hu, h1, h2]⟩

/-- Witness for the amended full-month theorem: the after-`now` row of
the counterexample ledger is included. -/
theorem total_spend_full_month_witness :
    c4row ∈ current_month_rows [c4row] 7 c4now :=
  (total_spend_full_month [c4row] 7 c4now c4row (by decide) (by decide)
    (by decide) (by decide)).1
